import Mathlib

/-!
Verification of the status-extraction and tab-orchestration core of
`monitor_parallel_tabs.py` (store-status tracker), together with the
batch-scheduler loop of `main` and the lock-step runner context.

The Python source is embedded shallowly: every pure helper becomes a Lean
function on `String` / `List Char`; the thread pool is modelled by an
explicit completion order (an arbitrary permutation of the scheduled jobs);
Python exceptions become `Except` values, with `SystemExit` kept distinct
from ordinary `Exception` subclasses because `except Exception` does not
catch it.  Character classes (`\d`, `\s`, `\w`) are modelled over their
ASCII meaning, which coincides with Python on the ASCII texts handled here.
-/

/-! ### Basic string primitives (Python `str.strip`, `str.lower`, `join`) -/

/-- Python whitespace test for the characters relevant here (`\s`). -/
def isWs (c : Char) : Bool :=
  c = ' ' || c = '\t' || c = '\n' || c = '\r'

/-- ASCII word-character test (`\w` = letters, digits, underscore). -/
def isWordC (c : Char) : Bool :=
  c.isAlpha || c.isDigit || c = '_'

/-- `str.strip` on a character list: drop whitespace from both ends. -/
def stripCL (cs : List Char) : List Char :=
  ((cs.dropWhile isWs).reverse.dropWhile isWs).reverse

/-- Python `s.strip()`. -/
def pyStrip (s : String) : String :=
  String.mk (stripCL s.data)

/-- Python `s.lower()` (ASCII). -/
def pyLower (s : String) : String :=
  String.mk (s.data.map Char.toLower)

/-- Python `sep.join(texts)`. -/
def pyJoin (sep : String) : List String → String
  | [] => ""
  | [t] => t
  | t :: ts => t ++ sep ++ pyJoin sep ts

/-- Boolean prefix test on character lists. -/
def prefixCL : List Char → List Char → Bool
  | [], _ => true
  | _ :: _, [] => false
  | a :: as, b :: bs => a = b && prefixCL as bs

/-- Python `needle in hay` substring test. -/
def containsSub : List Char → List Char → Bool
  | [], n => n.isEmpty
  | hay@(_ :: t), n => prefixCL n hay || containsSub t n

/-! ### The `opens at` pattern of `infer_status`

`re.search(r"opens?\s+at\s+([0-9:\sapm\.]+)", j)` from
`monitor_parallel_tabs.py` line 168, hand-compiled.  The input `j` is
already lower-cased, and the pattern has no flags, so matching is literal.
The only backtracking the pattern can perform is between the second `\s+`
and the character class (which itself contains `\s`): when the class would
otherwise be empty, the `\s+` gives back its last whitespace character to
the class, provided at least one whitespace character remains. -/

/-- Character class `[0-9:\sapm.]`. -/
def opensClass (c : Char) : Bool :=
  c.isDigit || c = ':' || isWs c || c = 'a' || c = 'p' || c = 'm' || c = '.'

/-- Try to match `opens?\s+at\s+([0-9:\sapm.]+)` starting exactly at the
head of `s`; return the captured group on success. -/
def opensAtAt (s : List Char) : Option (List Char) :=
  match s with
  | 'o' :: 'p' :: 'e' :: 'n' :: r0 =>
    -- optional `s?`: if the next char is `s` and taking it fails, the
    -- fallback without it also fails on `\s+`, so taking it is complete.
    let r1 := match r0 with
      | 's' :: r => r
      | r => r
    let w1 := (r1.takeWhile isWs).length
    if w1 = 0 then none
    else
      match r1.drop w1 with
      | 'a' :: 't' :: r2 =>
        let w2 := (r2.takeWhile isWs).length
        if w2 = 0 then none
        else
          let rest := r2.drop w2
          let cls := rest.takeWhile opensClass
          if cls.length ≠ 0 then some cls
          else if 2 ≤ w2 then some ((r2.drop (w2 - 1)).take 1)
          else none
      | _ => none
  | _ => none

/-- `re.search`: try every start position left to right. -/
def opensAtSearch : Nat → List Char → Option (List Char)
  | 0, _ => none
  | _, [] => none
  | fuel + 1, c :: rest =>
    match opensAtAt (c :: rest) with
    | some g => some g
    | none => opensAtSearch fuel rest

/-! ### `infer_status` (lines 162-171) -/

/-- The lower-cased `" | "`-join `j` built by `infer_status`. -/
def status_join (texts : List String) : List Char :=
  (pyJoin " | " (texts.map pyLower)).data

/-- The `Closed` rule: `"temporarily closed" in j or "closed" in j`. -/
def closed_rule (j : List Char) : Bool :=
  containsSub j "temporarily closed".data || containsSub j "closed".data

/-- The `Not accepting` rule:
`"not accepting" in j or "currently not accepting" in j`. -/
def notacc_rule (j : List Char) : Bool :=
  containsSub j "not accepting".data || containsSub j "currently not accepting".data

/-- The `Opens at` rule: `re.search` for the opens-at pattern. -/
def opens_rule (j : List Char) : Option (List Char) :=
  opensAtSearch (j.length + 1) j

/-- `infer_status(texts)`: priority list `Closed` > `Not accepting orders`
> `Opens at <time>` > `Available`, evaluated over the lower-cased join. -/
def infer_status (texts : List String) : String :=
  let j := status_join texts
  if closed_rule j then "Closed"
  else if notacc_rule j then "Not accepting orders"
  else
    match opens_rule j with
    | some g => "Opens at " ++ pyStrip (String.mk g)
    | none => "Available"


/-! ### The ETA pattern (`parse_eta_from_text`, lines 132-146)

`ETA_PAT = re.compile(r"\b(\d+)\s*(?:–|-|to)?\s*(\d+)?\s*mins?\b", re.I)`,
hand-compiled.  The greedy quantifiers `(\d+)`, each `\s*` and `(\d+)?`
never need to give characters back, because each is followed by a
construct that cannot match the characters the quantifier consumed
(digits, whitespace and the literals are pairwise disjoint); the remaining
choice points — the optional separator, the optional second number and the
optional `s` of `mins?` — are tried in the order the regex engine tries
them (present before absent).  A match always starts with a digit, so the
leading `\b` reduces to "the previous character is not a word character";
the trailing `\b` after `n`/`s` reduces to "the next character, if any, is
not a word character". -/

/-- The separator alternation `(?:–|-|to)` at the head of `r`, returning
how many characters it consumes when it matches textually (`to` is
case-insensitive under `re.I`). -/
def etaSepLen (r : List Char) : Option Nat :=
  match r with
  | '–' :: _ => some 1
  | '-' :: _ => some 1
  | c1 :: c2 :: _ => if c1.toLower = 't' ∧ c2.toLower = 'o' then some 2 else none
  | _ => none

/-- `mins?\b` at the head of `r` (case-insensitive), returning the number
of characters consumed.  When the character after `min` is an `s`, the
variant without the `s` cannot satisfy the boundary (both `n` and `s` are
word characters), so taking the `s` is the only candidate. -/
def etaMinTail (r : List Char) : Option Nat :=
  match r with
  | m :: i :: n :: rest =>
    if m.toLower = 'm' ∧ i.toLower = 'i' ∧ n.toLower = 'n' then
      match rest with
      | [] => some 3
      | s :: rest2 =>
        if s.toLower = 's' then
          match rest2 with
          | [] => some 4
          | c :: _ => if isWordC c then none else some 4
        else if isWordC s then none
        else some 3
    else none
  | _ => none

/-- `\s*(\d+)?\s*mins?\b` at the head of `afterSep`, trying the second
number greedily first, then without it. -/
def etaTailWith (afterSep : List Char) : Option Nat :=
  let w2 := (afterSep.takeWhile isWs).length
  let r3 := afterSep.drop w2
  let d2 := (r3.takeWhile Char.isDigit).length
  let withD2 : Option Nat :=
    if d2 ≠ 0 then
      let r4 := r3.drop d2
      let w3 := (r4.takeWhile isWs).length
      match etaMinTail (r4.drop w3) with
      | some ml => some (w2 + d2 + w3 + ml)
      | none => none
    else none
  match withD2 with
  | some n => some n
  | none =>
    -- second number absent; after the maximal `\s*` the following `\s*`
    -- is necessarily empty
    match etaMinTail r3 with
    | some ml => some (w2 + ml)
    | none => none

/-- `\s*(?:–|-|to)?\s*(\d+)?\s*mins?\b` at the head of `r1`: separator
present (when it matches textually) is tried before separator absent. -/
def etaTail (r1 : List Char) : Option Nat :=
  let w1 := (r1.takeWhile isWs).length
  let afterW1 := r1.drop w1
  match etaSepLen afterW1 with
  | some sl =>
    (match etaTailWith (afterW1.drop sl) with
     | some n => some (w1 + sl + n)
     | none =>
       match etaTailWith afterW1 with
       | some n => some (w1 + n)
       | none => none)
  | none =>
    match etaTailWith afterW1 with
    | some n => some (w1 + n)
    | none => none

/-- Full pattern at the head of `s` (the caller has checked the leading
word boundary); returns the length of `group(0)`. -/
def etaMatchAt (s : List Char) : Option Nat :=
  let d1 := (s.takeWhile Char.isDigit).length
  if d1 = 0 then none
  else
    match etaTail (s.drop d1) with
    | some n => some (d1 + n)
    | none => none

/-- Whether an optional preceding character is a word character (the start
of the string counts as a non-word position). -/
def wordOpt : Option Char → Bool
  | none => false
  | some c => isWordC c

/-- `ETA_PAT.finditer`: left-to-right, non-overlapping scan; each match
resumes after its own end. -/
def etaScan : Nat → Option Char → List Char → List (List Char)
  | 0, _, _ => []
  | _, _, [] => []
  | fuel + 1, prev, c :: rest =>
    let s := c :: rest
    if wordOpt prev then etaScan fuel (some c) rest
    else
      match etaMatchAt s with
      | some n => s.take n :: etaScan fuel (some ((s.take n).getLastD c)) (s.drop n)
      | none => etaScan fuel (some c) rest

/-- All `m.group(0).strip()` produced by `ETA_PAT.finditer(t)`. -/
def eta_matches (t : String) : List String :=
  (etaScan (t.data.length + 1) none t.data).map (fun cs => pyStrip (String.mk cs))

/-- The per-fragment collection pass of `parse_eta_from_text`. -/
def frag_hits (texts : List String) : List String :=
  texts.flatMap eta_matches

/-- The hit list after the joined-text fallback: if the per-fragment scan
yields nothing, rescan `" | ".join(texts)`. -/
def eta_hits (texts : List String) : List String :=
  let hits := frag_hits texts
  if hits.isEmpty then eta_matches (pyJoin " | " texts) else hits

/-- `hits.sort(key=len); hits[0]`: Python sort is stable, so the result is
the earliest hit of minimal length; computed by a fold keeping the current
best and replacing it only on a strictly shorter hit. -/
def pick_shortest (h : String) (t : List String) : String :=
  t.foldl (fun best x => if x.length < best.length then x else best) h

/-- `parse_eta_from_text(texts)`: `""` when there is no hit at all,
otherwise the earliest hit of minimal length. -/
def parse_eta_from_text (texts : List String) : String :=
  match eta_hits texts with
  | [] => ""
  | h :: t => pick_shortest h t


/-! ### `extract_texts` (lines 148-160)

The browser signature `extract_texts(driver, locs, max_elems)` is embedded
over its observable input: for each locator the ordered list of element
texts that locator finds.  Per locator only the first `max_elems` elements
are considered (`elems[:max_elems]`); each text is stripped, and kept only
when non-empty and not seen before — the `seen` set is shared across
locators, so the output list is de-duplicated globally.  The output list
itself has the same membership as `seen`, so it serves as the set. -/

/-- One step of the inner loop of `extract_texts`. -/
def add_text (out : List String) (e : String) : List String :=
  let t := pyStrip e
  if t ≠ "" ∧ t ∉ out then out ++ [t] else out

/-- `extract_texts`: `locs` holds, per locator, the texts of the elements
that locator matched. -/
def extract_texts (locs : List (List String)) (max_elems : Nat) : List String :=
  locs.foldl (fun out elems => (elems.take max_elems).foldl add_text out) []


/-! ### `scrape_store`: rendering and retry (lines 205-241)

The pure tail of `scrape_store` after the fragments are in hand. -/

/-- Lines 227-229 / 237:
`compact = status if not eta else f"{status} | {eta}"` followed by
`if sold_out: compact += f" | SO:{sold_out}"`. -/
def render_compact (status eta : String) (sold_out : Nat) : String :=
  let compact := if eta = "" then status else status ++ " | " ++ eta
  if sold_out ≠ 0 then compact ++ " | SO:" ++ toString sold_out else compact

/-- The Swiggy branch of `scrape_store`: status and ETA fragments feed the
extractor, the sold-out count is the number of de-duplicated texts found
by the sold-out locators with `max_elems=300`. -/
def swiggy_compact (status_texts eta_texts : List String)
    (soldout_elems : List (List String)) : String :=
  render_compact (infer_status status_texts) (parse_eta_from_text eta_texts)
    (extract_texts soldout_elems 300).length

/-- The Zomato branch of `scrape_store`: no sold-out count at all. -/
def zomato_compact (status_texts eta_texts : List String) : String :=
  render_compact (infer_status status_texts) (parse_eta_from_text eta_texts) 0

/-- The retry wrapper `@retry(stop=stop_after_attempt(2), wait=wait_fixed(2))`
on `scrape_store` (line 205).  `fetch n` is the result of the n-th attempt
of the whole check: `.ok` with the compact status string, or `.error` with
the exception class name.  Tenacity runs attempt 1, retries once on
failure, and after the second failure raises `RetryError` (the default
`reraise=False`).  Returns the final result paired with the number of
attempts that were executed. -/
def scrape_with_retry (fetch : Nat → Except String String) :
    Except String String × Nat :=
  match fetch 1 with
  | .ok s => (.ok s, 1)
  | .error _ =>
    match fetch 2 with
    | .ok s => (.ok s, 2)
    | .error _ => (.error "RetryError", 2)

/-- Lines 301-307: the orchestrator turns a worker result into the row
outcome — the compact string on success, `"Error: <kind>"` on failure. -/
def outcome_of : Except String String → String
  | .ok s => s
  | .error k => "Error: " ++ k

/-! ### Job model and `process_one_tab` (lines 251-318) -/

/-- One store-check job: the stripped aggregator and link of the row plus
the raw latitude/longitude cells.  `to_float` coerces the coordinate text
to a float or `None`; the coordinates are passed opaquely to the fetch
port and never inspected by the orchestration logic, so the raw cell text
is carried here. -/
structure Job where
  agg : String
  link : String
  lat : String
  lng : String
deriving DecidableEq, Repr

/-- A row payload: either a pre-formed message (missing data detected
while parsing the row) or a job to schedule. -/
inductive Payload where
  | msg (s : String)
  | job (j : Job)
deriving DecidableEq, Repr

/-- `getv(ci)` inside the row loop:
`row_vals[ci-1] if ci-1 < len(row_vals) else ""` (1-based column). -/
def getv (row_vals : List String) (ci : Nat) : String :=
  row_vals.getD (ci - 1) ""

/-- Lines 279-286: build one row payload. -/
def build_job (row_vals : List String) (colAgg colLink colLat colLng : Nat) : Payload :=
  let agg := pyStrip (getv row_vals colAgg)
  let link := pyStrip (getv row_vals colLink)
  if agg = "" ∨ link = "" then .msg "Missing link/aggregator"
  else .job ⟨agg, link, getv row_vals colLat, getv row_vals colLng⟩

/-- Lines 275-286: `for r in range(max(3, header_row + 1), len(all_vals) + 1)`
(1-based row numbers, end inclusive). -/
def build_jobs (all_vals : List (List String)) (header_row : Nat)
    (colAgg colLink colLat colLng : Nat) : List (Nat × Payload) :=
  (List.range' (max 3 (header_row + 1)) (all_vals.length + 1 - max 3 (header_row + 1))).map
    (fun r => (r, build_job (all_vals.getD (r - 1) []) colAgg colLink colLat colLng))

/-- The pre-resolved entries: payloads that are already messages are
placed into `results` directly, without scheduling (lines 297-299). -/
def pre_resolved (jobs : List (Nat × Payload)) : List (Nat × String) :=
  jobs.filterMap (fun rp =>
    match rp with
    | (r, .msg s) => some (r, s)
    | (_, .job _) => none)

/-- The scheduled entries: payloads that are tuples are submitted to the
pool (lines 293-296). -/
def scheduled (jobs : List (Nat × Payload)) : List (Nat × Job) :=
  jobs.filterMap (fun rp =>
    match rp with
    | (_, .msg _) => none
    | (r, .job j) => some (r, j))

/-- Lines 288-308, the per-tab orchestration: pre-resolved messages are
recorded directly; scheduled jobs are recorded as the pool completes them.
`check j` is the (deterministic, for identical inputs) result of the
retried store check for job `j`; `completed` is the order in which
`as_completed` yields the scheduled jobs — any permutation of them.
`workers` is `MAX_WORKERS`: it bounds how many checks run at once and so
constrains timing only; it appears here to make its irrelevance to the
result provable.  The result map is an association list with distinct
keys, read through `lookupRow`. -/
def run_tab (check : Job → Except String String) (workers : Nat)
    (jobs : List (Nat × Payload)) (completed : List (Nat × Job)) :
    List (Nat × String) :=
  pre_resolved jobs ++ completed.map (fun rj => (rj.1, outcome_of (check rj.2)))

/-- Dictionary lookup on the result map (keys are unique per cycle). -/
def lookupRow (r : Nat) : List (Nat × String) → Option String
  | [] => none
  | (a, b) :: t => if a = r then some b else lookupRow r t

/-- The outcome each row is expected to carry, independent of scheduling. -/
def expected_outcome (check : Job → Except String String) : Payload → String
  | .msg s => s
  | .job j => outcome_of (check j)

/-! ### Header discovery, log column, and the batch loop -/

/-- Python exception taxonomy as far as `except Exception` is concerned:
`SystemExit` derives from `BaseException` but not from `Exception`, so an
`except Exception` handler does not catch it. -/
inductive PyExc where
  | exc (name : String)
  | systemExit (msg : String)
deriving DecidableEq, Repr

/-- The required header names (line 63). -/
def wanted : List String := ["brand", "location", "aggregator", "link", "latitude", "longitude"]

/-- Python `list.index`: first index of `x` (callers guard membership). -/
def pyIndex (l : List String) (x : String) : Nat :=
  match l with
  | [] => 0
  | a :: t => if a = x then 0 else pyIndex t x + 1

/-- Lines 61-69, `find_header_row_and_columns`: first row (1-based) whose
stripped lower-cased cells contain every wanted name; on success the row
index and the 1-based column of each name; otherwise
`raise SystemExit(...)`. -/
def find_header_aux : Nat → List (List String) → Except PyExc (Nat × List (String × Nat))
  | _, [] => .error (.systemExit
      "Header row not found. Expected columns: Brand, Location, Aggregator, Link, Latitude, Longitude")
  | i, row :: rest =>
    let lowers := row.map (fun c => pyLower (pyStrip c))
    if wanted.all (fun w => decide (w ∈ lowers)) then
      .ok (i, wanted.map (fun w => (w, pyIndex lowers w + 1)))
    else find_header_aux (i + 1) rest

/-- `find_header_row_and_columns(all_values)`. -/
def find_header_row_and_columns (all_values : List (List String)) :
    Except PyExc (Nat × List (String × Nat)) :=
  find_header_aux 1 all_values

/-- Reading a 1-based cell of a header row:
`row1[col-1] if col-1 < len(row1) else ""` (lines 76-77). -/
def getCell (row : List String) (col : Nat) : String :=
  row.getD (col - 1) ""

/-- Whether a header cell is blank after stripping. -/
def cellBlank (row : List String) (col : Nat) : Bool :=
  (pyStrip (getCell row col)).data.isEmpty

/-- Lines 75-78: a column is free when rows 1 and 2 are both blank. -/
def col_is_empty (row1 row2 : List String) (col : Nat) : Bool :=
  cellBlank row1 col && cellBlank row2 col

/-- The `while True` scan of `first_empty_log_column`, bounded by fuel;
beyond both row lengths every cell reads `""`, so enough fuel always
reaches a free column. -/
def scan_free (row1 row2 : List String) : Nat → Nat → Nat
  | 0, col => col
  | fuel + 1, col =>
    if col_is_empty row1 row2 col then col
    else scan_free row1 row2 fuel (col + 1)

/-- Lines 71-83, `first_empty_log_column(ws, start_col)` over the two
header rows. -/
def first_empty_log_column (row1 row2 : List String) (start_col : Nat) : Nat :=
  scan_free row1 row2 (max row1.length row2.length + 1) start_col

/-- `ws.update_cell(rowIdx, col, v)` restricted to one row: set the
1-based `col` cell, extending the row with blanks if needed. -/
def setCell (row : List String) (col : Nat) (v : String) : List String :=
  (row ++ List.replicate (col - row.length) "").set (col - 1) v

/-- Lines 330-334, the tab loop of `main`: each tab is attempted in order;
an ordinary `Exception` is caught and logged and the loop continues, but a
`SystemExit` (not an `Exception` subclass) escapes the handler and aborts
the run.  Returns the list of tabs attempted and, if the run aborted, the
escaping message. -/
def main_loop (process : String → Except PyExc Unit) :
    List String → List String × Option String
  | [] => ([], none)
  | t :: ts =>
    match process t with
    | .ok _ =>
      let rest := main_loop process ts
      (t :: rest.1, rest.2)
    | .error (.exc _) =>
      let rest := main_loop process ts
      (t :: rest.1, rest.2)
    | .error (.systemExit m) => ([t], some m)

/-! ### Helper lemmas -/

lemma add_text_nodup {out : List String} (h : out.Nodup) (e : String) :
    (add_text out e).Nodup := by
  by_cases hc : pyStrip e ≠ "" ∧ pyStrip e ∉ out
  · have he : add_text out e = out ++ [pyStrip e] := by simp [add_text, hc.1, hc.2]
    rw [he]
    simp only [List.nodup_append, List.nodup_singleton, true_and, List.disjoint_singleton]
    exact ⟨h, hc.2⟩
  · have he : add_text out e = out := by simp only [add_text, if_neg hc]
    rw [he]; exact h

lemma foldl_add_text_nodup : ∀ (elems out : List String), out.Nodup →
    (elems.foldl add_text out).Nodup
  | [], _, h => h
  | e :: es, out, h => foldl_add_text_nodup es (add_text out e) (add_text_nodup h e)

lemma extract_texts_aux_nodup (m : Nat) : ∀ (locs : List (List String)) (out : List String),
    out.Nodup → (locs.foldl (fun out elems => (elems.take m).foldl add_text out) out).Nodup
  | [], _, h => h
  | es :: ls, out, h =>
    extract_texts_aux_nodup m ls _ (foldl_add_text_nodup (es.take m) out h)

lemma extract_texts_nodup (locs : List (List String)) (m : Nat) :
    (extract_texts locs m).Nodup :=
  extract_texts_aux_nodup m locs [] List.nodup_nil

/-! ### Claims -/

/-- C1: `infer_status` evaluates the rules in fixed priority order
`Closed` > `Not accepting` > `Opens at` > default `Available` over the
lower-cased join, first match wins; in particular a fragment set matching
both the closed rule and the opens-at rule yields `Closed`, and a fragment
set matching no rule yields `Available`. -/
theorem C1_status_priority (texts : List String) :
    (closed_rule (status_join texts) = true ∧ opens_rule (status_join texts) ≠ none →
      infer_status texts = "Closed")
    ∧ (closed_rule (status_join texts) = true → infer_status texts = "Closed")
    ∧ (closed_rule (status_join texts) = false → notacc_rule (status_join texts) = true →
      infer_status texts = "Not accepting orders")
    ∧ (closed_rule (status_join texts) = false → notacc_rule (status_join texts) = false →
      ∀ g, opens_rule (status_join texts) = some g →
        infer_status texts = "Opens at " ++ pyStrip (String.mk g))
    ∧ (closed_rule (status_join texts) = false → notacc_rule (status_join texts) = false →
      opens_rule (status_join texts) = none → infer_status texts = "Available") := by
  refine ⟨fun h => ?_, fun h1 => ?_, fun h1 h2 => ?_, fun h1 h2 g hg => ?_, fun h1 h2 h3 => ?_⟩
  · simp [infer_status, h.1]
  · simp [infer_status, h1]
  · simp [infer_status, h1, h2]
  · simp [infer_status, h1, h2, hg]
  · simp [infer_status, h1, h2, h3]

/-- Witness for C1 at concrete fragment sets. -/
theorem C1_witness :
    infer_status ["Temporarily closed", "Opens at 9 pm"] = "Closed"
    ∧ infer_status ["Fast delivery"] = "Available" :=
  ⟨(C1_status_priority ["Temporarily closed", "Opens at 9 pm"]).1 ⟨by decide, by decide⟩,
   (C1_status_priority ["Fast delivery"]).2.2.2.2 (by decide) (by decide) (by decide)⟩

/-- C3: the retried store check runs at most 2 attempts; a failure on the
first attempt followed by a success on the retry yields the successful
string; failure of both attempts yields exactly an `"Error: <kind>"`
outcome; and the per-row outcome always exists as a plain string (either
the success value or an `"Error: "`-prefixed one), so no exception escapes
the orchestration. -/
theorem C3_retry_budget (fetch : Nat → Except String String) :
    (scrape_with_retry fetch).2 ≤ 2
    ∧ (∀ s, fetch 1 = .ok s → outcome_of (scrape_with_retry fetch).1 = s)
    ∧ (∀ k s, fetch 1 = .error k → fetch 2 = .ok s →
        outcome_of (scrape_with_retry fetch).1 = s)
    ∧ (∀ k1 k2, fetch 1 = .error k1 → fetch 2 = .error k2 →
        outcome_of (scrape_with_retry fetch).1 = "Error: " ++ "RetryError")
    ∧ ((∃ s, (scrape_with_retry fetch).1 = .ok s ∧ outcome_of (scrape_with_retry fetch).1 = s)
        ∨ outcome_of (scrape_with_retry fetch).1 = "Error: " ++ "RetryError") := by
  refine ⟨?_, fun s h1 => ?_, fun k s h1 h2 => ?_, fun k1 k2 h1 h2 => ?_, ?_⟩
  · cases h1 : fetch 1 <;> simp [scrape_with_retry, h1]
    cases h2 : fetch 2 <;> simp [h2]
  · simp [scrape_with_retry, h1, outcome_of]
  · simp [scrape_with_retry, h1, h2, outcome_of]
  · simp [scrape_with_retry, h1, h2, outcome_of]
  · cases h1 : fetch 1 with
    | error k =>
      cases h2 : fetch 2 with
      | error k2 => right; simp [scrape_with_retry, h1, h2, outcome_of]
      | ok s => left; exact ⟨s, by simp [scrape_with_retry, h1, h2], by simp [scrape_with_retry, h1, h2, outcome_of]⟩
    | ok s => left; exact ⟨s, by simp [scrape_with_retry, h1], by simp [scrape_with_retry, h1, outcome_of]⟩

/-- A fetch behaviour that fails once (a timeout) and then succeeds. -/
def C3_fetch : Nat → Except String String :=
  fun n => if n = 1 then .error "TimeoutException" else .ok "Available | 25-30 mins"

/-- Witness for C3: the retried success is recorded, not an error. -/
theorem C3_witness :
    outcome_of (scrape_with_retry C3_fetch).1 = "Available | 25-30 mins" :=
  (C3_retry_budget C3_fetch).2.2.1 "TimeoutException" "Available | 25-30 mins" rfl rfl

/-- The element texts of the sold-out example. -/
def C4_elems : List (List String) := [["Sold out", "Sold out", "Unavailable"]]

/-- Counterexample for C4: for the element texts
`["Sold out", "Sold out", "Unavailable"]` the sold-out count produced by
the code is not 3 — `extract_texts` de-duplicates repeated texts. -/
theorem C4_counterexample : ¬ ((extract_texts C4_elems 300).length = 3) := by decide

/-- C4 (amended): the sold-out count equals the number of *de-duplicated*
non-empty stripped element texts (capped per locator), so the example
texts count 2 and render as suffix `"| SO:2"`; the extracted list is
always duplicate-free. -/
theorem C4_soldout_count :
    (extract_texts C4_elems 300).length = 2
    ∧ swiggy_compact [] [] C4_elems = "Available | SO:2"
    ∧ ∀ locs m, (extract_texts locs m).Nodup :=
  ⟨by decide, by decide, extract_texts_nodup⟩

/-- The fragments of the C7 example. -/
def C7_frags : List String := ["Opens at 9:00 PM", "25-30 mins"]

/-- Counterexample for C7: the rendered string for the example fragments
is not `"Opens at 9:00 PM | 25-30 mins"` — the opens-at time is captured
from the lower-cased join, so `PM` comes out as `pm`. -/
theorem C7_counterexample :
    swiggy_compact C7_frags C7_frags [] ≠ "Opens at 9:00 PM | 25-30 mins" := by decide

/-- C7 (amended): the compact outcome is the label, then `" | " + eta`
exactly when an ETA is present, then `" | SO:" + count` exactly when the
count is positive; for the example fragments the label is
`Opens at 9:00 pm` (time text lower-cased) and the rendering is
`"Opens at 9:00 pm | 25-30 mins"`. -/
theorem C7_render_rule :
    (∀ (s e : String) (n : Nat), e ≠ "" → n ≠ 0 →
      render_compact s e n = s ++ " | " ++ e ++ " | SO:" ++ toString n)
    ∧ (∀ (s e : String), e ≠ "" → render_compact s e 0 = s ++ " | " ++ e)
    ∧ (∀ (s : String) (n : Nat), n ≠ 0 → render_compact s "" n = s ++ " | SO:" ++ toString n)
    ∧ (∀ s : String, render_compact s "" 0 = s)
    ∧ swiggy_compact C7_frags C7_frags [] = "Opens at 9:00 pm | 25-30 mins" := by
  refine ⟨fun s e n he hn => ?_, fun s e he => ?_, fun s n hn => ?_, fun s => ?_, by decide⟩
  · simp [render_compact, he, hn]
  · simp [render_compact, he]
  · simp [render_compact, hn]
  · simp [render_compact]

/-- Witness for C7 at concrete label, ETA and count values. -/
theorem C7_witness :
    render_compact "Closed" "20 mins" 2 = "Closed | 20 mins | SO:2"
    ∧ render_compact "Available" "" 0 = "Available" :=
  ⟨by rw [C7_render_rule.1 "Closed" "20 mins" 2 (by decide) (by decide)]; decide,
   C7_render_rule.2.2.2.1 "Available"⟩

/-- The sheet grids of the two tabs in the C5 scenario: the first tab has
no header row, the second is well-formed. -/
def C5_grid (t : String) : List (List String) :=
  if t = "TabA" then [["no", "header", "here"]]
  else [["Brand", "Location", "Aggregator", "Link", "Latitude", "Longitude"]]

/-- Per-tab processing up to header discovery for the C5 scenario. -/
def C5_process (t : String) : Except PyExc Unit :=
  (find_header_row_and_columns (C5_grid t)).map (fun _ => ())

/-- A per-tab failure raised as an ordinary `Exception` subclass. -/
def C5_process_exc (t : String) : Except PyExc Unit :=
  if t = "TabA" then .error (.exc "APIError") else .ok ()

/-- C5 (code behaviour at the failing input): when the first tab's header
row is missing, `find_header_row_and_columns` raises `SystemExit`, which
`except Exception` in `main` does not catch — the run aborts and the
second tab is never processed.  An ordinary `Exception` from a tab is
caught and the loop does continue. -/
theorem C5_header_aborts_run :
    main_loop C5_process ["TabA", "TabB"]
      = (["TabA"], some "Header row not found. Expected columns: Brand, Location, Aggregator, Link, Latitude, Longitude")
    ∧ "TabB" ∉ (main_loop C5_process ["TabA", "TabB"]).1
    ∧ main_loop C5_process_exc ["TabA", "TabB"] = (["TabA", "TabB"], none) := by decide

/-! ### Result-map lemmas for the orchestration claims -/

lemma pre_resolved_cons_msg (r : Nat) (s : String) (t : List (Nat × Payload)) :
    pre_resolved ((r, .msg s) :: t) = (r, s) :: pre_resolved t := rfl

lemma pre_resolved_cons_job (r : Nat) (j : Job) (t : List (Nat × Payload)) :
    pre_resolved ((r, .job j) :: t) = pre_resolved t := rfl

lemma scheduled_cons_msg (r : Nat) (s : String) (t : List (Nat × Payload)) :
    scheduled ((r, .msg s) :: t) = scheduled t := rfl

lemma scheduled_cons_job (r : Nat) (j : Job) (t : List (Nat × Payload)) :
    scheduled ((r, .job j) :: t) = (r, j) :: scheduled t := rfl

/-- Splitting a job list into pre-resolved and scheduled entries is a
partition of its keys. -/
lemma pre_sched_keys_perm : ∀ jobs : List (Nat × Payload),
    List.Perm ((pre_resolved jobs).map Prod.fst ++ (scheduled jobs).map Prod.fst)
      (jobs.map Prod.fst)
  | [] => by simp [pre_resolved, scheduled]
  | (r, .msg s) :: t => by
      rw [pre_resolved_cons_msg, scheduled_cons_msg]
      simpa using (pre_sched_keys_perm t).cons r
  | (r, .job j) :: t => by
      rw [pre_resolved_cons_job, scheduled_cons_job]
      simp only [List.map_cons]
      exact List.perm_middle.trans ((pre_sched_keys_perm t).cons r)

lemma lookupRow_eq_of_mem {l : List (Nat × String)} {r : Nat} {v : String}
    (nd : (l.map Prod.fst).Nodup) (hm : (r, v) ∈ l) : lookupRow r l = some v := by
  induction l with
  | nil => cases hm
  | cons ab t ih =>
    obtain ⟨a, b⟩ := ab
    simp only [List.map_cons, List.nodup_cons] at nd
    rcases List.mem_cons.1 hm with heq | hmem
    · cases heq
      simp [lookupRow]
    · have har : a ≠ r := by
        intro hh
        subst hh
        exact nd.1 (List.mem_map.2 ⟨(a, v), hmem, rfl⟩)
      simp only [lookupRow, if_neg har]
      exact ih nd.2 hmem

lemma lookupRow_eq_none {l : List (Nat × String)} {r : Nat}
    (h : r ∉ l.map Prod.fst) : lookupRow r l = none := by
  induction l with
  | nil => rfl
  | cons ab t ih =>
    obtain ⟨a, b⟩ := ab
    simp only [List.map_cons, List.mem_cons, not_or] at h
    simp only [lookupRow, if_neg (fun hh : a = r => h.1 hh.symm)]
    exact ih h.2

/-- The keys of the result map are a permutation of the input row ids, for
any completion order. -/
lemma run_tab_keys_perm (check : Job → Except String String) (workers : Nat)
    (jobs : List (Nat × Payload)) (completed : List (Nat × Job))
    (hc : List.Perm completed (scheduled jobs)) :
    List.Perm ((run_tab check workers jobs completed).map Prod.fst) (jobs.map Prod.fst) := by
  have h1 : (run_tab check workers jobs completed).map Prod.fst
      = (pre_resolved jobs).map Prod.fst ++ completed.map Prod.fst := by
    simp [run_tab, List.map_map, Function.comp]
  rw [h1]
  exact (List.Perm.append_left _ (hc.map Prod.fst)).trans (pre_sched_keys_perm jobs)

/-- Every input row appears in the result map with its expected outcome. -/
lemma run_tab_mem_expected (check : Job → Except String String) (workers : Nat)
    {jobs : List (Nat × Payload)} {completed : List (Nat × Job)}
    (hc : List.Perm completed (scheduled jobs)) {r : Nat} {p : Payload} (hm : (r, p) ∈ jobs) :
    (r, expected_outcome check p) ∈ run_tab check workers jobs completed := by
  cases p with
  | msg s =>
    exact List.mem_append_left _ (List.mem_filterMap.2 ⟨(r, .msg s), hm, rfl⟩)
  | job j =>
    apply List.mem_append_right
    have hsch : (r, j) ∈ scheduled jobs := List.mem_filterMap.2 ⟨(r, .job j), hm, rfl⟩
    exact List.mem_map.2 ⟨(r, j), hc.mem_iff.2 hsch, rfl⟩

/-- C2: for distinct input row ids, the result map of the per-tab
orchestration has exactly the input row ids as keys — every row has
exactly one outcome — and the per-row content is the same for every worker
pool size (at least 1) and every completion order. -/
theorem C2_result_map_complete (check : Job → Except String String)
    (workers workers2 : Nat) (jobs : List (Nat × Payload))
    (completed completed2 : List (Nat × Job))
    (hw : 1 ≤ workers) (hnd : (jobs.map Prod.fst).Nodup)
    (hc : List.Perm completed (scheduled jobs)) (hc2 : List.Perm completed2 (scheduled jobs)) :
    List.Perm ((run_tab check workers jobs completed).map Prod.fst) (jobs.map Prod.fst)
    ∧ (∀ r p, (r, p) ∈ jobs →
        lookupRow r (run_tab check workers jobs completed)
          = some (expected_outcome check p))
    ∧ (∀ r, lookupRow r (run_tab check workers jobs completed)
        = lookupRow r (run_tab check workers2 jobs completed2)) := by
  have hk := run_tab_keys_perm check workers jobs completed hc
  have hk2 := run_tab_keys_perm check workers2 jobs completed2 hc2
  have hndL : ((run_tab check workers jobs completed).map Prod.fst).Nodup :=
    hk.nodup_iff.mpr hnd
  have hndL2 : ((run_tab check workers2 jobs completed2).map Prod.fst).Nodup :=
    hk2.nodup_iff.mpr hnd
  have hlook : ∀ r p, (r, p) ∈ jobs →
      lookupRow r (run_tab check workers jobs completed)
        = some (expected_outcome check p) :=
    fun _ _ hm => lookupRow_eq_of_mem hndL (run_tab_mem_expected check workers hc hm)
  have hlook2 : ∀ r p, (r, p) ∈ jobs →
      lookupRow r (run_tab check workers2 jobs completed2)
        = some (expected_outcome check p) :=
    fun _ _ hm => lookupRow_eq_of_mem hndL2 (run_tab_mem_expected check workers2 hc2 hm)
  refine ⟨hk, hlook, fun r => ?_⟩
  by_cases hmem : r ∈ jobs.map Prod.fst
  · obtain ⟨⟨r2, p⟩, hmj, hfp⟩ := List.mem_map.1 hmem
    cases hfp
    exact (hlook r2 p hmj).trans (hlook2 r2 p hmj).symm
  · rw [lookupRow_eq_none (fun hx => hmem (hk.mem_iff.1 hx)),
        lookupRow_eq_none (fun hx => hmem (hk2.mem_iff.1 hx))]

/-- A deterministic check behaviour used by concrete witnesses. -/
def check_fixed : Job → Except String String :=
  fun j => if j.link = "bad" then .error "WebDriverException" else .ok ("Available | " ++ j.agg)

/-- A job whose check succeeds. -/
def C2_jobA : Job := ⟨"swiggy", "a.example", "", ""⟩

/-- A job whose check fails. -/
def C2_jobB : Job := ⟨"zomato", "bad", "", ""⟩

/-- A tab input mixing a pre-resolved message and two scheduled jobs. -/
def C2_jobs : List (Nat × Payload) :=
  [(3, .msg "Missing link/aggregator"), (4, .job C2_jobA), (5, .job C2_jobB)]

/-- One completion order of the scheduled jobs. -/
def C2_completed : List (Nat × Job) := [(5, C2_jobB), (4, C2_jobA)]

/-- The other completion order of the scheduled jobs. -/
def C2_completed2 : List (Nat × Job) := [(4, C2_jobA), (5, C2_jobB)]

/-- Witness for C2 on a concrete tab with two completion orders and two
pool sizes. -/
theorem C2_witness :
    List.Perm ((run_tab check_fixed 1 C2_jobs C2_completed).map Prod.fst) (C2_jobs.map Prod.fst)
    ∧ lookupRow 5 (run_tab check_fixed 1 C2_jobs C2_completed)
        = lookupRow 5 (run_tab check_fixed 2 C2_jobs C2_completed2) :=
  ⟨(C2_result_map_complete check_fixed 1 2 C2_jobs C2_completed C2_completed2
      (by decide) (by decide) (by decide) (by decide)).1,
   (C2_result_map_complete check_fixed 1 2 C2_jobs C2_completed C2_completed2
      (by decide) (by decide) (by decide) (by decide)).2.2 5⟩

/-! ### Row-range lemmas for C8 and C10 -/

lemma build_jobs_keys (all_vals : List (List String)) (h cA cL cLat cLng : Nat) :
    (build_jobs all_vals h cA cL cLat cLng).map Prod.fst
      = List.range' (max 3 (h + 1)) (all_vals.length + 1 - max 3 (h + 1)) := by
  simp only [build_jobs, List.map_map]
  rw [show (Prod.fst ∘ fun r => (r, build_job (all_vals.getD (r - 1) []) cA cL cLat cLng))
      = id from rfl, List.map_id]

lemma build_jobs_mem {all_vals : List (List String)} {h cA cL cLat cLng r : Nat}
    {p : Payload} :
    (r, p) ∈ build_jobs all_vals h cA cL cLat cLng ↔
      (r ∈ List.range' (max 3 (h + 1)) (all_vals.length + 1 - max 3 (h + 1))
        ∧ p = build_job (all_vals.getD (r - 1) []) cA cL cLat cLng) := by
  unfold build_jobs
  constructor
  · intro hm
    obtain ⟨x, hx, heq⟩ := List.mem_map.1 hm
    cases heq
    exact ⟨hx, rfl⟩
  · rintro ⟨hr, rfl⟩
    exact List.mem_map.2 ⟨r, hr, rfl⟩

lemma build_jobs_nodup (all_vals : List (List String)) (h cA cL cLat cLng : Nat) :
    ((build_jobs all_vals h cA cL cLat cLng).map Prod.fst).Nodup := by
  rw [build_jobs_keys]
  exact List.nodup_range' _ _

/-- C8: a row whose aggregator or link cell strips to empty is never
scheduled — the fetch port is not invoked for it — and its recorded
outcome is exactly `"Missing link/aggregator"`. -/
theorem C8_missing_link_short_circuit (check : Job → Except String String)
    (workers : Nat) (all_vals : List (List String)) (hrow cA cL cLat cLng r : Nat)
    (completed : List (Nat × Job))
    (hc : List.Perm completed (scheduled (build_jobs all_vals hrow cA cL cLat cLng)))
    (hlo : max 3 (hrow + 1) ≤ r) (hhi : r ≤ all_vals.length)
    (hempty : pyStrip (getv (all_vals.getD (r - 1) []) cA) = ""
      ∨ pyStrip (getv (all_vals.getD (r - 1) []) cL) = "") :
    (∀ j : Job, (r, j) ∉ scheduled (build_jobs all_vals hrow cA cL cLat cLng))
    ∧ lookupRow r (run_tab check workers (build_jobs all_vals hrow cA cL cLat cLng) completed)
        = some "Missing link/aggregator" := by
  have hbj : build_job (all_vals.getD (r - 1) []) cA cL cLat cLng
      = .msg "Missing link/aggregator" := by
    simp only [build_job]
    rw [if_pos hempty]
  have hrange : r ∈ List.range' (max 3 (hrow + 1))
      (all_vals.length + 1 - max 3 (hrow + 1)) := by
    rw [List.mem_range'_1]
    omega
  constructor
  · intro j hj
    obtain ⟨⟨r2, p⟩, hp, hfp⟩ := List.mem_filterMap.1 hj
    cases p with
    | msg s => simp at hfp
    | job j2 =>
      simp only [Option.some.injEq, Prod.mk.injEq] at hfp
      obtain ⟨rfl, rfl⟩ := hfp
      have hpj := (build_jobs_mem.1 hp).2
      rw [hbj] at hpj
      cases hpj
  · have hmem : (r, Payload.msg "Missing link/aggregator")
        ∈ build_jobs all_vals hrow cA cL cLat cLng :=
      build_jobs_mem.2 ⟨hrange, hbj.symm⟩
    have hndL := (run_tab_keys_perm check workers _ completed hc).nodup_iff.mpr
      (build_jobs_nodup all_vals hrow cA cL cLat cLng)
    exact lookupRow_eq_of_mem hndL (run_tab_mem_expected check workers hc hmem)

/-- A grid whose row 3 has an empty link cell. -/
def C8_vals : List (List String) :=
  [["Brand", "Location", "Aggregator", "Link", "Latitude", "Longitude"],
   ["-", "-", "-", "-", "-", "-"],
   ["B1", "L1", "swiggy", "", "1.0", "2.0"]]

/-- Witness for C8: the empty-link row gets the missing-data outcome. -/
theorem C8_witness :
    lookupRow 3 (run_tab check_fixed 1 (build_jobs C8_vals 1 3 4 5 6) [])
      = some "Missing link/aggregator" :=
  (C8_missing_link_short_circuit check_fixed 1 C8_vals 1 3 4 5 6 3 []
    (by decide) (by decide) (by decide) (by decide)).2

/-- C10: jobs are built only from 1-based rows `>= max(3, header_row+1)`,
so rows 1 and 2 never become jobs; with the header in row 1, row 2 is
silently skipped and receives no outcome in the result map. -/
theorem C10_rows_start_at_three (all_vals : List (List String))
    (hrow cA cL cLat cLng : Nat) :
    (∀ r p, (r, p) ∈ build_jobs all_vals hrow cA cL cLat cLng →
      max 3 (hrow + 1) ≤ r ∧ 3 ≤ r)
    ∧ (∀ p, (1, p) ∉ build_jobs all_vals hrow cA cL cLat cLng)
    ∧ (∀ p, (2, p) ∉ build_jobs all_vals hrow cA cL cLat cLng)
    ∧ (hrow = 1 → ∀ (check : Job → Except String String) (workers : Nat)
        (completed : List (Nat × Job)),
        List.Perm completed (scheduled (build_jobs all_vals 1 cA cL cLat cLng)) →
        lookupRow 2 (run_tab check workers (build_jobs all_vals 1 cA cL cLat cLng) completed)
          = none) := by
  have hb : ∀ r p, (r, p) ∈ build_jobs all_vals hrow cA cL cLat cLng →
      max 3 (hrow + 1) ≤ r ∧ 3 ≤ r := by
    intro r p hm
    have hr := (build_jobs_mem.1 hm).1
    rw [List.mem_range'_1] at hr
    exact ⟨hr.1, le_trans (le_max_left 3 (hrow + 1)) hr.1⟩
  refine ⟨hb, fun p hp => ?_, fun p hp => ?_, ?_⟩
  · have := (hb 1 p hp).2
    omega
  · have := (hb 2 p hp).2
    omega
  · rintro rfl check workers completed hc
    apply lookupRow_eq_none
    intro hx
    have h2 := (run_tab_keys_perm check workers _ completed hc).mem_iff.1 hx
    rw [build_jobs_keys, List.mem_range'_1] at h2
    have h3 : max 3 (1 + 1) = 3 := rfl
    omega

/-- A grid whose header is row 1 and whose row 2 holds data that is
silently skipped. -/
def C10_vals : List (List String) :=
  [["Brand", "Location", "Aggregator", "Link", "Latitude", "Longitude"],
   ["skipped", "row", "two", "x", "", ""],
   ["B1", "L1", "swiggy", "link1", "", ""]]

/-- The single scheduled job of the C10 grid, already completed. -/
def C10_completed : List (Nat × Job) := [(3, ⟨"swiggy", "link1", "", ""⟩)]

/-- Witness for C10: row 2 receives no outcome, row 3 is in range. -/
theorem C10_witness :
    lookupRow 2 (run_tab check_fixed 1 (build_jobs C10_vals 1 3 4 5 6) C10_completed) = none
    ∧ (3 ≤ 3) :=
  ⟨(C10_rows_start_at_three C10_vals 1 3 4 5 6).2.2.2 rfl check_fixed 1 C10_completed
      (by decide),
   ((C10_rows_start_at_three C10_vals 1 3 4 5 6).1 3
      (Payload.job ⟨"swiggy", "link1", "", ""⟩) (by decide)).2⟩

/-! ### Shortest-hit selection for C6 -/

lemma pick_shortest_spec : ∀ (t : List String) (h : String),
    pick_shortest h t ∈ h :: t
    ∧ ∀ x ∈ h :: t, (pick_shortest h t).length ≤ x.length
  | [], h => by
      refine ⟨by simp [pick_shortest], fun x hx => ?_⟩
      rcases List.mem_cons.1 hx with rfl | hx2
      · exact Nat.le_refl _
      · cases hx2
  | a :: t, h => by
      have ih := pick_shortest_spec t (if a.length < h.length then a else h)
      have hdef : pick_shortest h (a :: t)
          = pick_shortest (if a.length < h.length then a else h) t := rfl
      rw [hdef]
      have hle : (pick_shortest (if a.length < h.length then a else h) t).length
          ≤ (if a.length < h.length then a else h).length :=
        ih.2 _ (List.mem_cons_self _ _)
      constructor
      · rcases List.mem_cons.1 ih.1 with he | hm
        · rw [he]
          split
          · exact List.mem_cons_of_mem _ (List.mem_cons_self _ _)
          · exact List.mem_cons_self _ _
        · exact List.mem_cons_of_mem _ (List.mem_cons_of_mem _ hm)
      · intro x hx
        rcases List.mem_cons.1 hx with rfl | hx2
        · refine le_trans hle ?_
          split
          · next hlt => exact Nat.le_of_lt hlt
          · exact Nat.le_refl _
        rcases List.mem_cons.1 hx2 with rfl | hx3
        · refine le_trans hle ?_
          split
          · exact Nat.le_refl _
          · next hlt => exact Nat.le_of_not_lt hlt
        · exact ih.2 x (List.mem_cons_of_mem _ hx3)

/-- C6: ETA extraction collects the pattern matches across the individual
fragments; exactly when that yields nothing it rescans the fragments
joined by the separator; a non-empty hit list yields a hit of minimal
textual length, and no hit anywhere yields the empty ETA. -/
theorem C6_eta_shortest (texts : List String) :
    (frag_hits texts ≠ [] → eta_hits texts = frag_hits texts)
    ∧ (frag_hits texts = [] → eta_hits texts = eta_matches (pyJoin " | " texts))
    ∧ (eta_hits texts = [] → parse_eta_from_text texts = "")
    ∧ (eta_hits texts ≠ [] → parse_eta_from_text texts ∈ eta_hits texts
        ∧ ∀ x ∈ eta_hits texts, (parse_eta_from_text texts).length ≤ x.length) := by
  refine ⟨fun h => ?_, fun h => ?_, fun h => ?_, fun h => ?_⟩
  · simp [eta_hits, h]
  · simp [eta_hits, h]
  · simp [parse_eta_from_text, h]
  · rcases he : eta_hits texts with _ | ⟨hd, tl⟩
    · exact absurd he h
    · have hpe : parse_eta_from_text texts = pick_shortest hd tl := by
        simp [parse_eta_from_text, he]
      rw [hpe]
      exact pick_shortest_spec tl hd

/-- Witness for C6: the shortest hit is chosen; no hit yields `""`. -/
theorem C6_witness :
    parse_eta_from_text ["25-30 mins", "20 mins"] ∈ eta_hits ["25-30 mins", "20 mins"]
    ∧ parse_eta_from_text ["no numbers here"] = "" :=
  ⟨((C6_eta_shortest ["25-30 mins", "20 mins"]).2.2.2 (by decide)).1,
   (C6_eta_shortest ["no numbers here"]).2.2.1 (by decide)⟩

/-! ### Log-column allocation lemmas for C9 -/

lemma getD_big : ∀ (l : List String) (j : Nat), l.length ≤ j → l.getD j "" = ""
  | [], _, _ => rfl
  | _ :: _, 0, h => absurd h (by simp)
  | _ :: t, j + 1, h => getD_big t j (by simpa using h)

lemma getD_replicate_blank : ∀ (n j : Nat), (List.replicate n ("" : String)).getD j "" = ""
  | 0, _ => rfl
  | _ + 1, 0 => rfl
  | n + 1, j + 1 => getD_replicate_blank n j

lemma getD_append_pad : ∀ (row : List String) (n j : Nat),
    (row ++ List.replicate n "").getD j "" = row.getD j ""
  | [], n, j => by simp [getD_replicate_blank]
  | _ :: _, _, 0 => rfl
  | _ :: row, n, j + 1 => getD_append_pad row n j

lemma getD_set_self : ∀ (l : List String) (i : Nat) (v : String),
    i < l.length → (l.set i v).getD i "" = v
  | [], _, _, h => absurd h (by simp)
  | _ :: _, 0, _, _ => rfl
  | _ :: t, i + 1, v, h => getD_set_self t i v (by simpa using h)

lemma getD_set_ne : ∀ (l : List String) (i j : Nat) (v : String),
    i ≠ j → (l.set i v).getD j "" = l.getD j ""
  | [], _, _, _, _ => rfl
  | _ :: _, 0, 0, _, h => absurd rfl h
  | _ :: _, 0, _ + 1, _, _ => rfl
  | _ :: _, _ + 1, 0, _, _ => rfl
  | _ :: t, i + 1, j + 1, v, h => getD_set_ne t i j v (fun hh => h (by rw [hh]))

lemma getCell_setCell_self (row : List String) (col : Nat) (v : String)
    (hc : 1 ≤ col) : getCell (setCell row col v) col = v := by
  unfold getCell setCell
  have hlen : col - 1 < (row ++ List.replicate (col - row.length) "").length := by
    rw [List.length_append, List.length_replicate]
    omega
  exact getD_set_self _ _ _ hlen

lemma getCell_setCell_ne (row : List String) (col k : Nat) (v : String)
    (hne : k ≠ col) (hk : 1 ≤ k) (hc : 1 ≤ col) :
    getCell (setCell row col v) k = getCell row k := by
  unfold getCell setCell
  rw [getD_set_ne _ _ _ _ (fun hh : col - 1 = k - 1 => hne (by omega))]
  exact getD_append_pad row _ _

lemma col_is_empty_set_ne (row1 row2 : List String) (c k : Nat) (d t : String)
    (hne : k ≠ c) (hk : 1 ≤ k) (hc : 1 ≤ c) :
    col_is_empty (setCell row1 c d) (setCell row2 c t) k = col_is_empty row1 row2 k := by
  unfold col_is_empty cellBlank
  rw [getCell_setCell_ne row1 c k d hne hk hc, getCell_setCell_ne row2 c k t hne hk hc]

lemma col_is_empty_set_self (row1 row2 : List String) (c : Nat) (d t : String)
    (hc : 1 ≤ c) (hd : pyStrip d ≠ "") :
    col_is_empty (setCell row1 c d) (setCell row2 c t) c = false := by
  unfold col_is_empty cellBlank
  rw [getCell_setCell_self row1 c d hc]
  have hdd : (pyStrip d).data.isEmpty = false := by
    cases hx : (pyStrip d).data with
    | nil => exact absurd (String.ext hx) hd
    | cons a t2 => rfl
  simp [hdd]

lemma col_is_empty_of_big (row1 row2 : List String) (col : Nat)
    (h1 : row1.length < col) (h2 : row2.length < col) :
    col_is_empty row1 row2 col = true := by
  unfold col_is_empty cellBlank getCell
  rw [getD_big row1 (col - 1) (by omega), getD_big row2 (col - 1) (by omega)]
  rfl

lemma scan_free_spec (row1 row2 : List String) : ∀ (fuel col : Nat),
    (∃ k, col ≤ k ∧ k < col + fuel ∧ col_is_empty row1 row2 k = true) →
    (col_is_empty row1 row2 (scan_free row1 row2 fuel col) = true
      ∧ col ≤ scan_free row1 row2 fuel col
      ∧ ∀ j, col ≤ j → j < scan_free row1 row2 fuel col →
          col_is_empty row1 row2 j = false)
  | 0, col, h => by
      obtain ⟨k, h1, h2, _⟩ := h
      omega
  | fuel + 1, col, h => by
      by_cases hc : col_is_empty row1 row2 col = true
      · simp only [scan_free, if_pos hc]
        exact ⟨hc, Nat.le_refl _, fun j hj1 hj2 => absurd hj1 (by omega)⟩
      · have hcf : col_is_empty row1 row2 col = false := by
          cases hcc : col_is_empty row1 row2 col
          · rfl
          · exact absurd hcc hc
        simp only [scan_free, if_neg hc]
        have hex : ∃ k, col + 1 ≤ k ∧ k < (col + 1) + fuel
            ∧ col_is_empty row1 row2 k = true := by
          obtain ⟨k, h1, h2, h3⟩ := h
          refine ⟨k, ?_, by omega, h3⟩
          rcases Nat.eq_or_lt_of_le h1 with rfl | hlt
          · rw [h3] at hcf
            cases hcf
          · omega
        obtain ⟨e1, e2, e3⟩ := scan_free_spec row1 row2 fuel (col + 1) hex
        refine ⟨e1, by omega, fun j hj1 hj2 => ?_⟩
        rcases Nat.eq_or_lt_of_le hj1 with rfl | hlt
        · exact hcf
        · exact e3 j hlt hj2

lemma free_col_exists (row1 row2 : List String) (start : Nat) (hs : 1 ≤ start) :
    ∃ k, start ≤ k ∧ k < start + (max row1.length row2.length + 1)
      ∧ col_is_empty row1 row2 k = true := by
  have hM1 : row1.length ≤ max row1.length row2.length := le_max_left _ _
  have hM2 : row2.length ≤ max row1.length row2.length := le_max_right _ _
  refine ⟨max start (max row1.length row2.length + 1), le_max_left _ _, ?_, ?_⟩
  · rcases Nat.le_total start (max row1.length row2.length + 1) with hle | hle
    · rw [Nat.max_eq_right hle]
      omega
    · rw [Nat.max_eq_left hle]
      omega
  · refine col_is_empty_of_big _ _ _ ?_ ?_
    · exact lt_of_lt_of_le (by omega) (le_max_right start _)
    · exact lt_of_lt_of_le (by omega) (le_max_right start _)

/-- The first-free-column characterisation, stated over
`first_empty_log_column` itself (definitionally `scan_free` at a fuel
that provably reaches a free column). -/
lemma first_empty_spec (row1 row2 : List String) (start : Nat) (hs : 1 ≤ start) :
    col_is_empty row1 row2 (first_empty_log_column row1 row2 start) = true
    ∧ start ≤ first_empty_log_column row1 row2 start
    ∧ ∀ j, start ≤ j → j < first_empty_log_column row1 row2 start →
        col_is_empty row1 row2 j = false :=
  scan_free_spec row1 row2 (max row1.length row2.length + 1) start
    (free_col_exists row1 row2 start hs)

/-- C9: the allocated log column is the first column at or right of the
anchor whose two header cells are blank; re-allocating over the unchanged
header rows returns the same column; and after the chosen column is
stamped with a (non-blank) date and time, any later allocation returns a
strictly larger column. -/
theorem C9_log_column_allocation (row1 row2 : List String) (start : Nat)
    (date tstamp : String) (hs : 1 ≤ start)
    (hd : pyStrip date ≠ "") (ht : pyStrip tstamp ≠ "") :
    col_is_empty row1 row2 (first_empty_log_column row1 row2 start) = true
    ∧ start ≤ first_empty_log_column row1 row2 start
    ∧ (∀ k, start ≤ k → k < first_empty_log_column row1 row2 start →
        col_is_empty row1 row2 k = false)
    ∧ first_empty_log_column row1 row2 start = first_empty_log_column row1 row2 start
    ∧ first_empty_log_column row1 row2 start
        < first_empty_log_column
            (setCell row1 (first_empty_log_column row1 row2 start) date)
            (setCell row2 (first_empty_log_column row1 row2 start) tstamp) start := by
  obtain ⟨f1, f2, f3⟩ := first_empty_spec row1 row2 start hs
  have hc1 : 1 ≤ first_empty_log_column row1 row2 start := le_trans hs f2
  refine ⟨f1, f2, f3, rfl, ?_⟩
  obtain ⟨g1, g2, g3⟩ :=
    first_empty_spec (setCell row1 (first_empty_log_column row1 row2 start) date)
      (setCell row2 (first_empty_log_column row1 row2 start) tstamp) start hs
  by_contra hle
  push_neg at hle
  rcases Nat.eq_or_lt_of_le hle with heq | hlt
  · have hfalse := col_is_empty_set_self row1 row2
      (first_empty_log_column row1 row2 start) date tstamp hc1 hd
    rw [heq, hfalse] at g1
    exact Bool.false_ne_true g1
  · have hne : first_empty_log_column
        (setCell row1 (first_empty_log_column row1 row2 start) date)
        (setCell row2 (first_empty_log_column row1 row2 start) tstamp) start
        ≠ first_empty_log_column row1 row2 start := Nat.ne_of_lt hlt
    have hst := col_is_empty_set_ne row1 row2
      (first_empty_log_column row1 row2 start)
      (first_empty_log_column
        (setCell row1 (first_empty_log_column row1 row2 start) date)
        (setCell row2 (first_empty_log_column row1 row2 start) tstamp) start)
      date tstamp hne (le_trans hs g2) hc1
    have hf := f3 _ g2 hlt
    rw [hst, hf] at g1
    exact Bool.false_ne_true g1

/-- The stamped state of the C9 witness: columns 1-3 already hold data. -/
def C9_row1 : List String := ["Brand", "x", "2024-01-01"]

/-- Second header row of the C9 witness. -/
def C9_row2 : List String := ["Location", "y", "09:00:00"]

/-- Witness for C9: the first free column right of the anchor is chosen
and, once stamped, the next allocation moves strictly right. -/
theorem C9_witness :
    col_is_empty C9_row1 C9_row2 (first_empty_log_column C9_row1 C9_row2 3) = true
    ∧ first_empty_log_column C9_row1 C9_row2 3
        < first_empty_log_column
            (setCell C9_row1 (first_empty_log_column C9_row1 C9_row2 3) "2024-01-02")
            (setCell C9_row2 (first_empty_log_column C9_row1 C9_row2 3) "09:15:00") 3 :=
  ⟨(C9_log_column_allocation C9_row1 C9_row2 3 "2024-01-02" "09:15:00"
      (by decide) (by decide) (by decide)).1,
   (C9_log_column_allocation C9_row1 C9_row2 3 "2024-01-02" "09:15:00"
      (by decide) (by decide) (by decide)).2.2.2.2⟩
